import Mathlib

/-
  Verification development for the Movie-Cleanup-App repository
  (src/movie_cleanup.py, src/config_manager.py, src/gui.py).

  The Python code is shallowly embedded: filesystem trees become explicit
  data (lists of file names per directory), the `os` / `shutil` calls become
  state-passing functions, fallible calls go through `Except`, and injected
  per-call failures (permission errors etc.) are supplied by an `Oracle`.
  Log records become a structured `LogEntry` list, one constructor per
  logging call site of the source.
-/

namespace MovieCleanup

/-- Python exceptions raised by the modelled `os`/`shutil` calls. -/
inductive FsError where
  | permission (path : String)
  | notFound (path : String)
  | ioError (path : String)
deriving DecidableEq, Repr

/-- One structured log record per `logging.*` call site in the source.
The comment on each constructor is the Python format string it stands for. -/
inductive LogEntry where
  /-- clean_unwanted_files: "Deleted {path}" -/
  | infoDeleted (path : String)
  /-- clean_unwanted_files: "Permission denied when trying to delete {path}: {e}" -/
  | warnPermission (path : String)
  /-- clean_unwanted_files: "File not found when trying to delete {path}: {e}" -/
  | warnNotFound (path : String)
  /-- clean_unwanted_files: "Error deleting {path}: {e}" -/
  | errorDeleting (path : String)
  /-- every operation: "The path {directory} is not a valid path." -/
  | errorPathInvalid (path : String)
  /-- organize_files_into_folders: "Created folder: {folder_path}" -/
  | infoCreatedFolder (path : String)
  /-- organize_files_into_folders: "Moved: {item} to {folder_path}" -/
  | infoMovedToFolder (item folderPath : String)
  /-- organize_files_into_folders: "Error organizing {item} into folders: {e}" -/
  | errorOrganizing (item : String)
  /-- move_and_rename_subtitles_and_nfo: "Deleted non-matching subtitle: {sub_file}" -/
  | infoDeletedNonMatching (name : String)
  /-- move_and_rename_subtitles_and_nfo: "Moved: {source} to {destination}" -/
  | infoMovedSubtitle (source destination : String)
  /-- move_and_rename_subtitles_and_nfo: "Deleted non-English subtitle: {source}" -/
  | infoDeletedNonEnglish (source : String)
  /-- move_and_rename_subtitles_and_nfo: "Deleted folder: {sub_folder_path}" -/
  | infoDeletedFolder (path : String)
  /-- move_and_rename_subtitles_and_nfo: "Error moving or deleting subtitle files in {p}: {e}" -/
  | errorSubtitleFolder (path : String)
  /-- move_and_rename_subtitles_and_nfo: "Renamed: {file_to_rename} to {new_name}" -/
  | infoRenamed (oldName newName : String)
  /-- move_and_rename_subtitles_and_nfo:
      "Skipped: {file_to_rename} already matches the movie name or target name exists." -/
  | warnSkipped (name : String)
  /-- move_and_rename_subtitles_and_nfo: "Error renaming {file_to_rename} to {new_name}: {e}" -/
  | errorRenaming (oldName newName : String)
  /-- rename_movie_folders: "Renamed folder: {dir} to {movie_base_name}" -/
  | infoRenamedFolder (oldName newName : String)
  /-- rename_movie_folders: "Error renaming folder {dir} to {movie_base_name}: {e}" -/
  | errorRenamingFolder (oldName newName : String)
  /-- manage_log_files: "Deleted old log file: {file_to_delete}" -/
  | infoDeletedOldLog (path : String)
deriving DecidableEq, Repr

/-- Injected failures for the modelled filesystem calls: `some e` means the
corresponding call raises `e` instead of performing its effect. -/
structure Oracle where
  failRemove : String → Option FsError
  failMove : String → Option FsError
  failRmtree : String → Option FsError
  failRename : String → Option FsError

/-- The oracle under which every filesystem call succeeds. -/
def Oracle.ok : Oracle :=
  ⟨fun _ => none, fun _ => none, fun _ => none, fun _ => none⟩

/-- `os.path.join` for a directory and a relative entry name (POSIX). -/
def pathJoin (a b : String) : String := a ++ "/" ++ b

/-- Python `str.endswith` for a single suffix, on the character list. -/
def strEndsWith (s suffix : String) : Bool :=
  s.data.reverse.take suffix.data.length == suffix.data.reverse

/-- Python `str.startswith`, on the character list. -/
def strStartsWith (s pre : String) : Bool :=
  s.data.take pre.data.length == pre.data

/-- Index of the dot where `os.path.splitext` splits: the last dot of the
name, provided some non-dot character precedes it (leading dots never start
an extension). -/
def splitextPos (cs : List Char) : Option Nat :=
  ((List.range cs.length).reverse.find? (fun i => cs.getD i ' ' == '.')).bind
    (fun i => if (cs.take i).any (fun c => c != '.') then some i else none)

/-- `os.path.splitext`: split a name into (base, extension). -/
def splitext (s : String) : String × String :=
  match splitextPos s.data with
  | some i => (⟨s.data.take i⟩, ⟨s.data.drop i⟩)
  | none => (s, "")

/- ------------------------------------------------------------------
   Subtitle-language classifier (movie_cleanup.py lines 28-64).
   The regular expressions used there are fixed patterns; each is modelled
   by an explicit search over the (lower-cased) character list.  `\b` is a
   transition between a word character ([A-Za-z0-9_]) and a non-word
   character or the string edge, exactly as in Python `re`.
   ------------------------------------------------------------------ -/

/-- Python `\w` over the ASCII range: letters, digits, underscore. -/
def isWordChar (c : Char) : Bool := c.isAlphanum || c == '_'

/-- Lower-cased character list of a filename (models `re.IGNORECASE`). -/
def lowerChars (s : String) : List Char := s.data.map Char.toLower

/-- Does `pat` occur in `s` starting at index `i`? -/
def matchesAt (pat s : List Char) (i : Nat) : Bool :=
  (s.drop i).take pat.length == pat

/-- A `\b` word boundary holds just before index `i`. -/
def boundaryBefore (s : List Char) (i : Nat) : Bool :=
  i == 0 || !(isWordChar (s.getD (i - 1) ' '))

/-- A `\b` word boundary holds just after index `j` (exclusive end). -/
def boundaryAfter (s : List Char) (j : Nat) : Bool :=
  j == s.length || !(isWordChar (s.getD j ' '))

/-- `re.search` for a literal pattern, optionally demanding a `\b` on the
left and/or right of the occurrence. -/
def reSearch (pat : String) (lb rb : Bool) (s : List Char) : Bool :=
  (List.range (s.length + 1)).any (fun i =>
    matchesAt pat.data s i &&
    (!lb || boundaryBefore s i) &&
    (!rb || boundaryAfter s (i + pat.data.length)))

/-- movie_cleanup.py lines 28-44: excluded (non-English) subtitle patterns
`\bFrench\b`, `\bfr\b`, `3_French`, all with `re.IGNORECASE`. -/
def is_excluded_subtitle (filename : String) : Bool :=
  let s := lowerChars filename
  reSearch "french" true true s ||
  reSearch "fr" true true s ||
  reSearch "3_french" false false s

/-- movie_cleanup.py lines 47-64: English iff not excluded and one of
`\beng\b`, `\benglish\b`, `_eng\b`, `_english\b`, `\beng_`, `\benglish_`
matches (IGNORECASE). -/
def is_english_subtitle (filename : String) : Bool :=
  if is_excluded_subtitle filename then false
  else
    let s := lowerChars filename
    reSearch "eng" true true s ||
    reSearch "english" true true s ||
    reSearch "_eng" false true s ||
    reSearch "_english" false true s ||
    reSearch "eng_" true false s ||
    reSearch "english_" true false s

/-- Spec-side restatement of "matches at least one English pattern":
standalone "eng" or "english", or "_eng", "_english", "eng_", "english_"
at a word boundary (case-insensitively). -/
def matches_english_pattern (filename : String) : Bool :=
  let s := lowerChars filename
  reSearch "eng" true true s ||
  reSearch "english" true true s ||
  reSearch "_eng" false true s ||
  reSearch "_english" false true s ||
  reSearch "eng_" true false s ||
  reSearch "english_" true false s

/- ------------------------------------------------------------------
   Retry decorator (movie_cleanup.py lines 10-26).
   `f i` is the outcome of the (i+1)-th call of the wrapped function.
   The result records the value returned / exception propagated, the list
   of `time.sleep` durations (each sleep is accompanied by one warning log
   in the source), and the total number of calls made.
   ------------------------------------------------------------------ -/

def retryAux {E A : Type} (f : Nat → Except E A) (backoff : Nat)
    (tries delay i : Nat) : Except E A × (List Nat × Nat) :=
  if _h : tries > 1 then
    -- while _tries > 1: guarded attempt
    match f i with
    | .ok a => (.ok a, ([], 1))
    | .error _ =>
      -- warning logged, sleep(_delay), _tries -= 1, _delay *= backoff
      let r := retryAux f backoff (tries - 1) (delay * backoff) (i + 1)
      (r.1, (delay :: r.2.1, r.2.2 + 1))
  else
    -- final unguarded call: its failure propagates
    (f i, ([], 1))
termination_by tries
decreasing_by omega

/-- The retry wrapper: `retry(exceptions, tries, delay, backoff)` applied to
a function whose successive call outcomes are given by `f`. -/
def retryPy {E A : Type} (f : Nat → Except E A) (tries delay backoff : Nat) :
    Except E A × (List Nat × Nat) :=
  retryAux f backoff tries delay 0

/- ------------------------------------------------------------------
   Theorems for claims C2 and C3.
   ------------------------------------------------------------------ -/

/-- C2: with the default policy (tries=4, delay=1, backoff=2), a function
failing on its first three calls is retried with sleeps 1s, 2s, 4s; if the
4th call succeeds its value is returned after exactly 4 calls (no 5th
attempt), and if the 4th call fails that failure propagates unguarded. -/
theorem retry_defaults_three_failures {E A : Type} (f : Nat → Except E A)
    (e0 e1 e2 : E)
    (h0 : f 0 = .error e0) (h1 : f 1 = .error e1) (h2 : f 2 = .error e2) :
    (∀ a : A, f 3 = .ok a → retryPy f 4 1 2 = (.ok a, ([1, 2, 4], 4))) ∧
    (∀ e3 : E, f 3 = .error e3 → retryPy f 4 1 2 = (.error e3, ([1, 2, 4], 4))) := by
  constructor
  · intro a h3
    simp [retryPy, retryAux, h0, h1, h2, h3]
  · intro e3 h3
    simp [retryPy, retryAux, h0, h1, h2, h3]

/-- Witness for C2 at a concrete function failing exactly three times. -/
theorem retry_defaults_three_failures_witness :
    retryPy (fun i => if i < 3 then Except.error i else Except.ok 42) 4 1 2 =
      (Except.ok 42, ([1, 2, 4], 4)) :=
  (retry_defaults_three_failures
    (fun i => if i < 3 then Except.error i else Except.ok 42)
    0 1 2 rfl rfl rfl).1 42 rfl

/-- C3: the classifier returns English exactly when the name matches none of
the exclusion patterns and at least one English pattern; any excluded name
is non-English. -/
theorem classifier_english_iff (filename : String) :
    (is_english_subtitle filename =
      (!is_excluded_subtitle filename && matches_english_pattern filename)) ∧
    (is_excluded_subtitle filename = true → is_english_subtitle filename = false) := by
  constructor
  · cases h : is_excluded_subtitle filename <;>
      simp [is_english_subtitle, matches_english_pattern, h]
  · intro h
    simp [is_english_subtitle, h]

/-- Witness for C3: "3_FRENCH.srt" is excluded, hence non-English. -/
theorem classifier_english_iff_witness :
    is_english_subtitle "3_FRENCH.srt" = false :=
  (classifier_english_iff "3_FRENCH.srt").2 (by decide)

/- ------------------------------------------------------------------
   clean_unwanted_files (movie_cleanup.py lines 66-83).
   `os.walk` presents the tree as a sequence of (directory path, file
   names) pairs; the operation reads nothing else from the tree and deletes
   files only, so it is modelled directly on that sequence.
   ------------------------------------------------------------------ -/

/-- The file list of one directory together with its path. -/
abbrev Walk := List (String × List String)

/-- Does `file.endswith(extensions)` hold (raw suffix match against a
tuple; an empty tuple matches nothing)? -/
def suffixMatch (exts : List String) (f : String) : Bool :=
  exts.any (fun e => strEndsWith f e)

/-- One iteration of the per-file loop of clean_unwanted_files: delete the
file if its name matches a suffix, triaging per-file failures
(PermissionError / FileNotFoundError as warnings, anything else as an
error); the walk never aborts.  The accumulator carries the surviving
files and the log so far. -/
def cleanStep (o : Oracle) (exts : List String) (root : String)
    (acc : List String × List LogEntry) (f : String) :
    List String × List LogEntry :=
  if suffixMatch exts f then
    let p := pathJoin root f
    match o.failRemove p with
    | none => (acc.1, acc.2 ++ [.infoDeleted p])
    | some (.permission _) => (acc.1 ++ [f], acc.2 ++ [.warnPermission p])
    | some (.notFound _) => (acc.1 ++ [f], acc.2 ++ [.warnNotFound p])
    | some (.ioError _) => (acc.1 ++ [f], acc.2 ++ [.errorDeleting p])
  else (acc.1 ++ [f], acc.2)

/-- The inner per-directory loop of clean_unwanted_files. -/
def clean_dir (o : Oracle) (exts : List String) (root : String)
    (files : List String) : List String × List LogEntry :=
  files.foldl (cleanStep o exts root) ([], [])

/-- One directory of the walk of clean_unwanted_files. -/
def walkStep (o : Oracle) (exts : List String)
    (acc : Walk × List LogEntry) (d : String × List String) :
    Walk × List LogEntry :=
  let r := clean_dir o exts d.1 d.2
  (acc.1 ++ [(d.1, r.1)], acc.2 ++ r.2)

/-- The full walk of clean_unwanted_files over an existing tree. -/
def clean_walk (o : Oracle) (exts : List String) (w : Walk) :
    Walk × List LogEntry :=
  w.foldl (walkStep o exts) ([], [])

/-- clean_unwanted_files(directory, extensions): `none` models a
non-existent target path (lines 68-70): log an error and return. -/
def clean_unwanted_files (dir : String) (exts : List String) (o : Oracle)
    (w? : Option Walk) : Option Walk × List LogEntry :=
  match w? with
  | none => (none, [.errorPathInvalid dir])
  | some w =>
    let r := clean_walk o exts w
    (some r.1, r.2)


/-- Per-directory deletion log entries under the all-success oracle. -/
def perDirLogs (exts : List String) : Walk → List LogEntry
  | [] => []
  | d :: rest =>
    (d.2.filter (suffixMatch exts)).map
      (fun f => LogEntry.infoDeleted (pathJoin d.1 f)) ++ perDirLogs exts rest

/-- Closed form of the per-file loop under the all-success oracle. -/
theorem clean_dir_ok_gen (exts : List String) (root : String)
    (files : List String) :
    ∀ (a : List String) (l : List LogEntry),
    files.foldl (cleanStep Oracle.ok exts root) (a, l) =
    (a ++ files.filter (fun f => !suffixMatch exts f),
     l ++ (files.filter (suffixMatch exts)).map
        (fun f => LogEntry.infoDeleted (pathJoin root f))) := by
  induction files with
  | nil => simp
  | cons f rest ih =>
    intro a l
    rw [List.foldl_cons]
    by_cases h : suffixMatch exts f = true
    · have hs : cleanStep Oracle.ok exts root (a, l) f =
          (a, l ++ [LogEntry.infoDeleted (pathJoin root f)]) := by
        simp [cleanStep, h, Oracle.ok]
      rw [hs, ih]
      simp [List.filter_cons, h]
    · have hs : cleanStep Oracle.ok exts root (a, l) f = (a ++ [f], l) := by
        simp [cleanStep, h]
      rw [hs, ih]
      simp [List.filter_cons, h]

/-- Closed form of `clean_dir` under the all-success oracle. -/
theorem clean_dir_ok (exts : List String) (root : String)
    (files : List String) :
    clean_dir Oracle.ok exts root files =
    (files.filter (fun f => !suffixMatch exts f),
     (files.filter (suffixMatch exts)).map
        (fun f => LogEntry.infoDeleted (pathJoin root f))) := by
  have h := clean_dir_ok_gen exts root files [] []
  simpa [clean_dir] using h

/-- Filtering the kept files again keeps them all and matches none. -/
theorem filter_keep_stable (p : String → Bool) (l : List String) :
    (l.filter (fun f => !p f)).filter (fun f => !p f) =
      l.filter (fun f => !p f) ∧
    (l.filter (fun f => !p f)).filter p = [] := by
  induction l with
  | nil => simp
  | cons f rest ih =>
    by_cases h : p f = true <;>
      simp [List.filter_cons, h, ih.1, ih.2]

/-- Closed form of the walk loop under the all-success oracle. -/
theorem clean_walk_ok_gen (exts : List String) (w : Walk) :
    ∀ (a : Walk) (l : List LogEntry),
    w.foldl (walkStep Oracle.ok exts) (a, l) =
    (a ++ w.map (fun d => (d.1, d.2.filter (fun f => !suffixMatch exts f))),
     l ++ perDirLogs exts w) := by
  induction w with
  | nil => simp [perDirLogs]
  | cons d rest ih =>
    intro a l
    rw [List.foldl_cons]
    have hs : walkStep Oracle.ok exts (a, l) d =
        (a ++ [(d.1, d.2.filter (fun f => !suffixMatch exts f))],
         l ++ (d.2.filter (suffixMatch exts)).map
            (fun f => LogEntry.infoDeleted (pathJoin d.1 f))) := by
      simp [walkStep, clean_dir_ok]
    rw [hs, ih]
    simp [perDirLogs]

/-- C9: over any existing tree, an all-successful run of
clean_unwanted_files followed by a second run is idempotent: the second run
deletes no file and produces no log records at all. -/
theorem clean_unwanted_files_idempotent (dir : String) (exts : List String)
    (w : Walk) :
    clean_unwanted_files dir exts Oracle.ok
        (clean_unwanted_files dir exts Oracle.ok (some w)).1 =
      ((clean_unwanted_files dir exts Oracle.ok (some w)).1, []) := by
  simp only [clean_unwanted_files, clean_walk]
  rw [clean_walk_ok_gen exts w [] []]
  simp only [List.nil_append]
  rw [clean_walk_ok_gen exts _ [] []]
  simp only [List.nil_append, Prod.mk.injEq]
  constructor
  · congr 1
    rw [List.map_map]
    apply List.map_congr_left
    intro d _
    simp [(filter_keep_stable (suffixMatch exts) d.2).1]
  · induction w with
    | nil => simp [perDirLogs]
    | cons d rest ih =>
      simp only [List.map_cons, perDirLogs,
        (filter_keep_stable (suffixMatch exts) d.2).2, List.map_nil,
        List.nil_append]
      exact ih

/-- C10: with an empty suffix collection, clean_unwanted_files deletes
nothing and logs nothing over any existing tree, under any oracle. -/
theorem clean_unwanted_files_empty_exts (dir : String) (o : Oracle)
    (w : Walk) :
    clean_unwanted_files dir [] o (some w) = (some w, []) := by
  have hdir : ∀ (root : String) (files : List String),
      clean_dir o [] root files = (files, []) := by
    intro root files
    have hgen : ∀ (rest : List String) (a : List String) (l : List LogEntry),
        rest.foldl (cleanStep o [] root) (a, l) = (a ++ rest, l) := by
      intro rest
      induction rest with
      | nil => simp
      | cons f r2 ih =>
        intro a l
        rw [List.foldl_cons]
        have hs : cleanStep o [] root (a, l) f = (a ++ [f], l) := by
          simp [cleanStep, suffixMatch]
        rw [hs, ih]
        simp
    simpa [clean_dir] using hgen files [] []
  simp only [clean_unwanted_files, clean_walk]
  have hw : ∀ (rest : Walk) (a : Walk) (l : List LogEntry),
      rest.foldl (walkStep o []) (a, l) = (a ++ rest, l) := by
    intro rest
    induction rest with
    | nil => simp
    | cons d r2 ih =>
      intro a l
      rw [List.foldl_cons]
      have hs : walkStep o [] (a, l) d = (a ++ [d], l) := by
        simp [walkStep, hdir]
      rw [hs, ih]
      simp
  rw [hw w [] []]
  simp

/- ------------------------------------------------------------------
   move_and_rename_subtitles_and_nfo (movie_cleanup.py lines 106-178).
   Modelled over a one-level tree (a movies directory whose subdirectories
   contain files but no further directories); `os.walk(topdown=False)`
   then visits each subdirectory (with an empty dirs list) and finally the
   root.  Mutations are threaded through a live `DirCtx`; an exception
   carries the state reached so far (`DirCtx × Option FsError`), because
   in Python effects made before a raise persist.
   ------------------------------------------------------------------ -/

/-- The configuration mapping read from config.json. -/
structure Config where
  movies_directory : String
  unwanted_extensions : List String
  subtitle_folder_names : List String
  movie_extensions : List String
  /-- read by the operation (line 111) but never consulted afterwards -/
  english_identifiers : List String
deriving DecidableEq, Repr

/-- A one-level directory tree: the root's files, and its immediate
subdirectories with their files. -/
structure FS1 where
  rootFiles : List String
  subdirs : List (String × List String)
deriving DecidableEq, Repr

/-- Live state of the directory being processed: its files, its child
folders (with their files), and the log so far. -/
structure DirCtx where
  files : List String
  folders : List (String × List String)
  log : List LogEntry
deriving DecidableEq, Repr

/-- Lines 134-141: with an exact-match subtitle present, delete every other
sibling subtitle.  NOTE: in the source this loop is NOT inside any
try/except, so a failing `os.remove` here aborts the whole operation;
effects made before the failure persist. -/
def deleteNonMatching (o : Oracle) (root exact : String) :
    List String → DirCtx → DirCtx × Option FsError
  | [], c => (c, none)
  | s :: rest, c =>
    if s ≠ exact then
      let p := pathJoin root s
      if c.files.contains s then
        match o.failRemove p with
        | none =>
          deleteNonMatching o root exact rest
            { c with files := c.files.erase s,
                     log := c.log ++ [.infoDeletedNonMatching s] }
        | some e => (c, some e)
      else (c, some (.notFound p))
    else deleteNonMatching o root exact rest c

/-- Lines 148-159: the loop over one subtitle folder's listing: English
subtitles are moved up into the movie's directory (overwriting a file of
the same name), non-English subtitles are deleted. -/
def subFolderFiles (o : Oracle) (root subPath dirName : String) :
    List String → DirCtx → DirCtx × Option FsError
  | [], c => (c, none)
  | f :: rest, c =>
    if strEndsWith f ".srt" then
      let source := pathJoin subPath f
      if is_english_subtitle f then
        -- shutil.move(source, destination)
        match o.failMove source with
        | some e => (c, some e)
        | none =>
          let destination := pathJoin root f
          subFolderFiles o root subPath dirName rest
            { files := if c.files.contains f then c.files else c.files ++ [f],
              folders := c.folders.map
                (fun q => if q.1 == dirName then (q.1, q.2.erase f) else q),
              log := c.log ++ [.infoMovedSubtitle source destination] }
      else
        -- os.remove(source)
        match (c.folders.find? (fun q => q.1 == dirName)).map
            (fun q => q.2.contains f) with
        | some true =>
          match o.failRemove source with
          | some e => (c, some e)
          | none =>
            let folders2 := c.folders.map
              (fun q => if q.1 == dirName then (q.1, q.2.erase f) else q)
            subFolderFiles o root subPath dirName rest
              { c with folders := folders2,
                       log := c.log ++ [.infoDeletedNonEnglish source] }
        | _ => (c, some (.notFound source))
    else subFolderFiles o root subPath dirName rest c

/-- Lines 144-163: handle one name from the walk's dirs snapshot.  If it is
a configured subtitle folder, list it, move/delete its subtitles, then
`shutil.rmtree` it; every failure inside is caught and logged as an error,
keeping the effects made before the failure. -/
def processSubFolder (cfg : Config) (o : Oracle) (root : String)
    (c : DirCtx) (dirName : String) : DirCtx :=
  if cfg.subtitle_folder_names.contains dirName then
    let subPath := pathJoin root dirName
    match c.folders.find? (fun q => q.1 == dirName) with
    | none =>
      -- os.listdir of a missing folder raises FileNotFoundError (caught)
      { c with log := c.log ++ [.errorSubtitleFolder subPath] }
    | some q =>
      match subFolderFiles o root subPath dirName q.2 c with
      | (c1, some _) => { c1 with log := c1.log ++ [.errorSubtitleFolder subPath] }
      | (c1, none) =>
        match o.failRmtree subPath with
        | some _ => { c1 with log := c1.log ++ [.errorSubtitleFolder subPath] }
        | none =>
          { c1 with folders := c1.folders.filter (fun q2 => q2.1 != dirName),
                    log := c1.log ++ [.infoDeletedFolder subPath] }
  else c

/-- Lines 165-178: companion-file renaming for one snapshot file.  The
per-file try/except catches every failure, so this step is total: if the
computed target path already exists (`os.path.exists` on the live state) a
warning is logged and nothing is renamed — also when the file already
carries the target name. -/
def renameOne (o : Oracle) (root base : String) (c : DirCtx) (f : String) :
    DirCtx :=
  if strEndsWith f ".srt" || strEndsWith f ".nfo" then
    let new_name := base ++ (splitext f).2
    if !(c.files.contains new_name || c.folders.any (fun q => q.1 == new_name)) then
      -- os.rename(old_file_path, new_file_path)
      if c.files.contains f then
        match o.failRename (pathJoin root f) with
        | none => { c with files := c.files.erase f ++ [new_name],
                           log := c.log ++ [.infoRenamed f new_name] }
        | some _ => { c with log := c.log ++ [.errorRenaming f new_name] }
      else
        -- the snapshot file is gone from the live directory: FileNotFoundError, caught
        { c with log := c.log ++ [.errorRenaming f new_name] }
    else { c with log := c.log ++ [.warnSkipped f] }
  else c

/-- Lines 122-178: the per-movie body of the walk. -/
def processOneMovie (cfg : Config) (o : Oracle) (root : String)
    (snapDirs snapFiles subtitle_files : List String)
    (acc : DirCtx × Option FsError) (movie_file : String) :
    DirCtx × Option FsError :=
  match acc with
  | (c, some e) => (c, some e)   -- an uncaught exception already aborted the walk
  | (c, none) =>
    let movie_base_name := (splitext movie_file).1
    let exact_name := movie_base_name ++ ".srt"
    match subtitle_files.find? (fun s => s == exact_name) with
    | some exact_match_subtitle =>
      deleteNonMatching o root exact_match_subtitle subtitle_files c
    | none =>
      let c1 := snapDirs.foldl (processSubFolder cfg o root) c
      let c2 := snapFiles.foldl (renameOne o root movie_base_name) c1
      (c2, none)

/-- Lines 117-178: process one directory of the walk, from its snapshot
file and dir listings. -/
def processDir (cfg : Config) (o : Oracle) (root : String)
    (snapFiles snapDirs : List String) (c : DirCtx) :
    DirCtx × Option FsError :=
  let movie_files := snapFiles.filter
    (fun f => cfg.movie_extensions.contains (splitext f).2)
  let subtitle_files := snapFiles.filter (fun f => strEndsWith f ".srt")
  movie_files.foldl
    (processOneMovie cfg o root snapDirs snapFiles subtitle_files) (c, none)

/-- The bottom-up walk over the subdirectories: each subdirectory of a
one-level tree contains no further directories, so its walk tuple carries
an empty dirs list; its processing touches only its own files. -/
def mvrnSubdirs (cfg : Config) (o : Oracle) (dir : String) :
    List (String × List String) → List LogEntry →
    List (String × List String) × List LogEntry × Option FsError
  | [], log => ([], log, none)
  | (n, fls) :: rest, log =>
    let r := processDir cfg o (pathJoin dir n) fls [] ⟨fls, [], log⟩
    match r.2 with
    | some e => ((n, r.1.files) :: rest, r.1.log, some e)
    | none =>
      let r2 := mvrnSubdirs cfg o dir rest r.1.log
      ((n, r.1.files) :: r2.1, r2.2.1, r2.2.2)

/-- Lines 106-178: move_and_rename_subtitles_and_nfo(config).  `none`
models a non-existent movies_directory (lines 113-115).  An uncaught
exception (possible only in the exact-match deletion branch) is returned
as `.error`, to be seen by the retry wrapper. -/
def move_and_rename_subtitles_and_nfo (cfg : Config) (o : Oracle)
    (fs? : Option FS1) : Except FsError (Option FS1 × List LogEntry) :=
  let dir := cfg.movies_directory
  match fs? with
  | none => .ok (none, [.errorPathInvalid dir])
  | some t =>
    let r := mvrnSubdirs cfg o dir t.subdirs []
    match r.2.2 with
    | some e => .error e
    | none =>
      let rr := processDir cfg o dir t.rootFiles (r.1.map Prod.fst)
        ⟨t.rootFiles, r.1, r.2.1⟩
      match rr.2 with
      | some e => .error e
      | none => .ok (some ⟨rr.1.files, rr.1.folders⟩, rr.1.log)

/-- A configuration whose movies directory is "m", with "Subs" as a
subtitle-container name and ".mkv" as the movie extension. -/
def cfg4 : Config := ⟨"m", [], ["Subs"], [".mkv"], ["eng", "english", "en"]⟩

/-- C4: in a directory holding "Movie.mkv", its exact-match "Movie.srt" and
an extra "Other.srt" (plus a subtitle folder with content), the operation
deletes only "Other.srt", leaves the subtitle folder untouched (no folder
processing) and performs no rename; the log shows exactly the one
deletion. -/
theorem mvrn_exact_match_scenario :
    move_and_rename_subtitles_and_nfo cfg4 Oracle.ok
      (some ⟨["Movie.mkv", "Movie.srt", "Other.srt"],
             [("Subs", ["2_French.srt", "Movie_eng.srt"])]⟩) =
    .ok (some ⟨["Movie.mkv", "Movie.srt"],
               [("Subs", ["2_French.srt", "Movie_eng.srt"])]⟩,
         [.infoDeletedNonMatching "Other.srt"]) := rfl

/-- The oracle that makes deleting "m/Other.srt" fail with a permission
error and lets everything else succeed. -/
def oracleC5 : Oracle :=
  { failRemove := fun p =>
      if p == "m/Other.srt" then some (.permission "m/Other.srt") else none,
    failMove := fun _ => none,
    failRmtree := fun _ => none,
    failRename := fun _ => none }

/-- C5 counterexample: a failure to delete the non-matching sibling
subtitle in the exact-match branch is NOT caught: it aborts the operation
and propagates to the caller. -/
theorem mvrn_exact_match_delete_uncaught :
    move_and_rename_subtitles_and_nfo cfg4 oracleC5
      (some ⟨["Movie.mkv", "Movie.srt", "Other.srt"], []⟩) =
    .error (.permission "m/Other.srt") := rfl

/-- Number of files whose extension is a configured movie extension. -/
def movieCount (cfg : Config) (files : List String) : Nat :=
  (files.filter (fun f => cfg.movie_extensions.contains (splitext f).2)).length

/-- If the deletions of the listed siblings succeed and each sibling
subtitle occurs in the live directory at least as often as in the
snapshot, the exact-match deletion loop raises nothing.  The remove
oracle is constrained only on this directory's own listed sibling paths. -/
theorem deleteNonMatching_ok (o : Oracle) (root exact : String) :
    ∀ (subs : List String) (c : DirCtx),
      (∀ s ∈ subs, o.failRemove (pathJoin root s) = none) →
      (∀ s, s ≠ exact → subs.count s ≤ c.files.count s) →
      (deleteNonMatching o root exact subs c).2 = none := by
  intro subs
  induction subs with
  | nil => intro c _ _; simp [deleteNonMatching]
  | cons s rest ih =>
    intro c hrem hc
    by_cases hse : s = exact
    · rw [deleteNonMatching, if_neg (by simp [hse])]
      exact ih c (fun s' hs' => hrem s' (by simp [hs']))
        (fun s' hs' =>
          le_trans (List.count_le_count_cons s' s rest) (hc s' hs'))
    · have hpos : 0 < c.files.count s :=
        lt_of_lt_of_le (by simp) (hc s hse)
      have hmem : s ∈ c.files := List.count_pos_iff.1 hpos
      have hcont : c.files.contains s = true := by
        simpa [List.elem_iff] using hmem
      rw [deleteNonMatching, if_pos hse]
      simp only [hcont, if_true, hrem s (by simp)]
      apply ih _ (fun s' hs' => hrem s' (by simp [hs']))
      intro s' hs'
      by_cases hss : s' = s
      · subst hss
        have h1 := hc s' hse
        rw [List.count_cons_self] at h1
        rw [List.count_erase_self]
        omega
      · rw [List.count_erase_of_ne hss]
        exact le_trans (le_of_eq (List.count_cons_of_ne hss rest).symm)
          (hc s' hs')

/-- If a directory's snapshot holds at most one movie file and the
deletions of its own listed files succeed, processing it raises nothing:
beyond the exact-match deletion loop, every per-item failure — including
failed removals inside subtitle folders — is caught inside the walk. -/
theorem processDir_ok (cfg : Config) (o : Oracle) (root : String)
    (snapDirs : List String) (files : List String)
    (folders : List (String × List String)) (log : List LogEntry)
    (hrem : ∀ s ∈ files, o.failRemove (pathJoin root s) = none)
    (hcount : movieCount cfg files ≤ 1) :
    (processDir cfg o root files snapDirs ⟨files, folders, log⟩).2 = none := by
  simp only [processDir]
  rcases hmf : files.filter
      (fun f => cfg.movie_extensions.contains (splitext f).2) with _ | ⟨m, rest⟩
  · simp
  · have hlen := hcount
    rw [movieCount, hmf] at hlen
    have hrest : rest = [] := by
      cases rest with
      | nil => rfl
      | cons a b => simp at hlen
    subst hrest
    simp only [List.foldl_cons, List.foldl_nil, processOneMovie]
    rcases hfind : (files.filter (fun f => strEndsWith f ".srt")).find?
        (fun s => s == (splitext m).1 ++ ".srt") with _ | ex
    · simp [hfind]
    · simp only [hfind]
      apply deleteNonMatching_ok o root ex _ _
        (fun s hs => hrem s (List.mem_of_mem_filter hs))
      intro s _
      exact (List.filter_sublist files).count_le s

/-- A directory whose snapshot holds no movie file is processed without
any action at all, whatever the oracle. -/
theorem processDir_ok_nomovies (cfg : Config) (o : Oracle) (root : String)
    (snapDirs snapFiles : List String) (c : DirCtx)
    (hcount : movieCount cfg snapFiles = 0) :
    (processDir cfg o root snapFiles snapDirs c).2 = none := by
  simp only [processDir]
  have hmf : snapFiles.filter
      (fun f => cfg.movie_extensions.contains (splitext f).2) = [] :=
    List.length_eq_zero.1 (by simpa [movieCount] using hcount)
  rw [hmf]
  rfl

/-- If no subdirectory holds a movie file, the bottom-up walk over the
subdirectories raises nothing, whatever the oracle. -/
theorem mvrnSubdirs_ok (cfg : Config) (o : Oracle) (dir : String) :
    ∀ (entries : List (String × List String)) (log : List LogEntry),
      (∀ q ∈ entries, movieCount cfg q.2 = 0) →
      (mvrnSubdirs cfg o dir entries log).2.2 = none := by
  intro entries
  induction entries with
  | nil => intro log _; simp [mvrnSubdirs]
  | cons e rest ih =>
    intro log hq
    obtain ⟨n, fls⟩ := e
    have h1 : (processDir cfg o (pathJoin dir n) fls [] ⟨fls, [], log⟩).2 = none :=
      processDir_ok_nomovies cfg o (pathJoin dir n) [] fls ⟨fls, [], log⟩
        (hq (n, fls) (by simp))
    simp only [mvrnSubdirs, h1]
    exact ih _ (fun q hq2 => hq q (by simp [hq2]))

/-- C5 (amended), in three parts.
(i) A failure anywhere inside the processing of one subtitle folder —
including a failed `os.remove` of a non-English subtitle — is caught: the
operation keeps the state reached and logs the error, and the walk
continues with this result.
(ii) A failed companion rename is caught and logged as an error, the walk
continuing likewise.
(iii) The whole operation returns normally whenever the only unguarded
step — the exact-match sibling deletions, which touch just the processed
directory's own listed files — succeeds: here, when the root holds at
most one movie file and its listed siblings can be removed, and the
subdirectories hold no movie files, while in-folder removals, moves,
folder deletions, listings and renames may all still fail. -/
theorem mvrn_per_item_failures_caught :
    (∀ (cfg : Config) (o : Oracle) (root dirName : String) (c c1 : DirCtx)
        (q : String × List String) (e : FsError),
      cfg.subtitle_folder_names.contains dirName = true →
      c.folders.find? (fun q2 => q2.1 == dirName) = some q →
      subFolderFiles o root (pathJoin root dirName) dirName q.2 c =
        (c1, some e) →
      processSubFolder cfg o root c dirName =
        { c1 with log := c1.log ++
            [.errorSubtitleFolder (pathJoin root dirName)] }) ∧
    (∀ (o : Oracle) (root base : String) (c : DirCtx) (f : String)
        (e : FsError),
      (strEndsWith f ".srt" || strEndsWith f ".nfo") = true →
      (c.files.contains (base ++ (splitext f).2) ||
        c.folders.any (fun q => q.1 == base ++ (splitext f).2)) = false →
      c.files.contains f = true →
      o.failRename (pathJoin root f) = some e →
      renameOne o root base c f =
        { c with log := c.log ++
            [.errorRenaming f (base ++ (splitext f).2)] }) ∧
    (∀ (cfg : Config) (o : Oracle) (t : FS1),
      (∀ s ∈ t.rootFiles,
        o.failRemove (pathJoin cfg.movies_directory s) = none) →
      movieCount cfg t.rootFiles ≤ 1 →
      (∀ q ∈ t.subdirs, movieCount cfg q.2 = 0) →
      ∃ u, move_and_rename_subtitles_and_nfo cfg o (some t) = .ok u) := by
  refine ⟨?_, ?_, ?_⟩
  · intro cfg o root dirName c c1 q e hname hfind hrun
    simp only [processSubFolder]
    rw [if_pos hname]
    simp only [hfind, hrun]
  · intro o root base c f e hext hnotex hold hfail
    simp only [renameOne]
    rw [if_pos hext, if_pos (by simpa using hnotex), if_pos hold, hfail]
  · intro cfg o t hrem hroot hsubs
    have h1 := mvrnSubdirs_ok cfg o cfg.movies_directory t.subdirs [] hsubs
    have h2 := processDir_ok cfg o cfg.movies_directory
        ((mvrnSubdirs cfg o cfg.movies_directory t.subdirs []).1.map Prod.fst)
        t.rootFiles (mvrnSubdirs cfg o cfg.movies_directory t.subdirs []).1
        (mvrnSubdirs cfg o cfg.movies_directory t.subdirs []).2.1 hrem hroot
    simp only [move_and_rename_subtitles_and_nfo, h1, h2]
    exact ⟨_, rfl⟩

/-- The oracle for the C5 witness: removing the non-English subtitle
inside "m/Subs" fails, every rename and folder deletion fails, and
everything else succeeds. -/
def oracleC5W : Oracle :=
  { failRemove := fun p =>
      if p == "m/Subs/2_French.srt"
      then some (.permission "m/Subs/2_French.srt") else none,
    failMove := fun _ => none,
    failRmtree := fun p => some (.permission p),
    failRename := fun p => some (.permission p) }

/-- The live directory state for the C5 witness. -/
def ctxC5W : DirCtx :=
  ⟨["Movie.mkv", "Movie2.nfo"], [("Subs", ["2_French.srt"])], []⟩

/-- Witness for C5: the failed in-folder deletion of a non-English
subtitle is caught and logged as an error, the failed companion rename is
caught and logged as an error, and the whole operation still completes
normally on a tree where both failures occur. -/
theorem mvrn_per_item_failures_caught_witness :
    (processSubFolder cfg4 oracleC5W "m" ctxC5W "Subs" =
      { ctxC5W with log := [.errorSubtitleFolder "m/Subs"] }) ∧
    (renameOne oracleC5W "m" "Movie" ctxC5W "Movie2.nfo" =
      { ctxC5W with log := [.errorRenaming "Movie2.nfo" "Movie.nfo"] }) ∧
    (∃ u, move_and_rename_subtitles_and_nfo cfg4 oracleC5W
      (some ⟨["Movie.mkv", "Movie2.nfo"], [("Subs", ["2_French.srt"])]⟩) =
        .ok u) :=
  ⟨mvrn_per_item_failures_caught.1 cfg4 oracleC5W "m" "Subs" ctxC5W ctxC5W
      ("Subs", ["2_French.srt"]) (.permission "m/Subs/2_French.srt")
      (by decide) rfl rfl,
   mvrn_per_item_failures_caught.2.1 oracleC5W "m" "Movie" ctxC5W
      "Movie2.nfo" (.permission "m/Movie2.nfo")
      (by decide) (by decide) (by decide) rfl,
   mvrn_per_item_failures_caught.2.2 cfg4 oracleC5W
      ⟨["Movie.mkv", "Movie2.nfo"], [("Subs", ["2_French.srt"])]⟩
      (by decide) (by decide) (by decide)⟩

/-- C6 counterexample: a companion file that already carries exactly the
computed target name is not skipped silently — the run leaves a warning
log record ("Skipped: ...") for it. -/
theorem mvrn_same_name_warns :
    move_and_rename_subtitles_and_nfo cfg4 Oracle.ok
      (some ⟨["Movie.mkv", "Movie.nfo"], []⟩) =
    .ok (some ⟨["Movie.mkv", "Movie.nfo"], []⟩, [.warnSkipped "Movie.nfo"]) := rfl

/-- C6 (amended): in the companion-renaming step, whenever the computed
target name already exists in the live directory — including when the file
already carries exactly that name — the rename is skipped and a warning is
logged (the same warning in both cases). -/
theorem renameOne_target_exists (o : Oracle) (root base : String)
    (c : DirCtx) (f : String)
    (hext : (strEndsWith f ".srt" || strEndsWith f ".nfo") = true)
    (htgt : c.files.contains (base ++ (splitext f).2) = true) :
    renameOne o root base c f = { c with log := c.log ++ [.warnSkipped f] } := by
  simp only [renameOne]
  have hmem : (base ++ (splitext f).2) ∈ c.files := by simpa using htgt
  rw [if_pos hext, if_neg (by simp [hmem])]

/-- Witness for the amended C6: "Sub.srt" is skipped with a warning because
"Movie.srt" (the target name) already exists. -/
theorem renameOne_target_exists_witness :
    renameOne Oracle.ok "m" "Movie"
      ⟨["Movie.mkv", "Movie.srt", "Sub.srt"], [], []⟩ "Sub.srt" =
    { files := ["Movie.mkv", "Movie.srt", "Sub.srt"], folders := [],
      log := [.warnSkipped "Sub.srt"] } :=
  renameOne_target_exists Oracle.ok "m" "Movie"
    ⟨["Movie.mkv", "Movie.srt", "Sub.srt"], [], []⟩ "Sub.srt"
    (by decide) (by decide)

/- ------------------------------------------------------------------
   rename_movie_folders (movie_cleanup.py lines 180-199).
   os.walk(topdown=False) over a one-level tree: the subdirectory tuples
   carry empty dirs lists (their inner loop does nothing), so only the
   root tuple's dirs loop acts.  `folder_path` is computed once per
   directory from its ORIGINAL name (line 188) and never updated after a
   rename.
   ------------------------------------------------------------------ -/

/-- Rename the subdirectory entry currently named `src` to `dst`. -/
def renameFolderEntry (subs : List (String × List String)) (src dst : String) :
    List (String × List String) :=
  subs.map (fun q => if q.1 == src then (dst, q.2) else q)

/-- Lines 189-199: the loop over one directory's listing.  Because
`os.rename` always uses the original `folder_path`, after a first
successful rename every further attempt fails (source path gone,
FileNotFoundError) and is caught by the per-item try/except. -/
def rmfFiles (o : Oracle) (dir : String) (movieExts : List String)
    (dirName : String) :
    List String → FS1 × List LogEntry → FS1 × List LogEntry
  | [], st => st
  | f :: rest, (t, log) =>
    if movieExts.contains (splitext f).2 then
      let movie_base_name := (splitext f).1
      let folder_path := pathJoin dir dirName
      let new_folder_path := pathJoin dir movie_base_name
      if folder_path ≠ new_folder_path then
        if !(t.subdirs.any (fun q => q.1 == dirName)) then
          -- source folder no longer exists: FileNotFoundError, caught
          rmfFiles o dir movieExts dirName rest
            (t, log ++ [.errorRenamingFolder dirName movie_base_name])
        else if t.subdirs.any (fun q => q.1 == movie_base_name) ||
            t.rootFiles.contains movie_base_name then
          -- the target path already exists: OSError, caught
          rmfFiles o dir movieExts dirName rest
            (t, log ++ [.errorRenamingFolder dirName movie_base_name])
        else
          match o.failRename folder_path with
          | some _ =>
            rmfFiles o dir movieExts dirName rest
              (t, log ++ [.errorRenamingFolder dirName movie_base_name])
          | none =>
            rmfFiles o dir movieExts dirName rest
              ({ t with subdirs := renameFolderEntry t.subdirs dirName movie_base_name },
               log ++ [.infoRenamedFolder dirName movie_base_name])
      else rmfFiles o dir movieExts dirName rest (t, log)
    else rmfFiles o dir movieExts dirName rest (t, log)

/-- Lines 180-199: rename_movie_folders(directory, movie_extensions).
`os.listdir(folder_path)` is not inside a try/except, so listing a
vanished folder would abort the operation (returned as `.error`). -/
def rename_movie_folders (dir : String) (movieExts : List String)
    (o : Oracle) (fs? : Option FS1) :
    Except FsError (Option FS1 × List LogEntry) :=
  match fs? with
  | none => .ok (none, [.errorPathInvalid dir])
  | some t =>
    let step := fun (st : FS1 × List LogEntry) (dirName : String) =>
      match st.1.subdirs.find? (fun q => q.1 == dirName) with
      | none => Except.error (FsError.notFound (pathJoin dir dirName))
      | some q => Except.ok (rmfFiles o dir movieExts dirName q.2 st)
    match (t.subdirs.map Prod.fst).foldlM step (t, ([] : List LogEntry)) with
    | .error e => .error e
    | .ok (t2, log) => .ok (some t2, log)

/-- C7 counterexample: a folder "randomname" holding "A.mkv" then "B.mkv"
(in listing order) ends up named "A" — the base name of the FIRST
differing movie file — not "B", the last one; the attempt for "B.mkv"
fails (the original path is gone) and is logged as an error. -/
theorem rename_movie_folders_first_base_wins :
    rename_movie_folders "m" [".mkv"] Oracle.ok
      (some ⟨[], [("randomname", ["A.mkv", "B.mkv"])]⟩) =
    .ok (some ⟨[], [("A", ["A.mkv", "B.mkv"])]⟩,
         [.infoRenamedFolder "randomname" "A",
          .errorRenamingFolder "randomname" "B"]) ∧
    ("A" : String) ≠ "B" := ⟨rfl, by decide⟩

/-- A matching movie file whose computed folder path differs from the
directory's original path — exactly the files for which the loop attempts
a rename. -/
def diffMovie (dir dirName : String) (movieExts : List String)
    (f : String) : Bool :=
  movieExts.contains (splitext f).2 &&
  decide (pathJoin dir dirName ≠ pathJoin dir (splitext f).1)

/-- Different joined paths come from different entry names. -/
theorem pathJoin_ne (dir a b : String)
    (h : pathJoin dir a ≠ pathJoin dir b) : a ≠ b :=
  fun he => h (by rw [he])

/-- Files that trigger no rename attempt (non-matching, or matching but
carrying the folder's own path) leave state and log untouched. -/
theorem rmfFiles_skip (o : Oracle) (dir : String) (movieExts : List String)
    (dirName : String) :
    ∀ (pre rest : List String) (st : FS1 × List LogEntry),
      (∀ f ∈ pre, diffMovie dir dirName movieExts f = false) →
      rmfFiles o dir movieExts dirName (pre ++ rest) st =
        rmfFiles o dir movieExts dirName rest st := by
  intro pre
  induction pre with
  | nil => intro rest st _; rfl
  | cons f p2 ih =>
    intro rest st hp
    obtain ⟨t, log⟩ := st
    have hf := hp f (by simp)
    rw [List.cons_append]
    by_cases hm : movieExts.contains (splitext f).2 = true
    · have hm' : (splitext f).2 ∈ movieExts := by simpa using hm
      have hep : pathJoin dir dirName = pathJoin dir (splitext f).1 := by
        by_contra hne
        simp [diffMovie, hm', hne] at hf
      simp only [rmfFiles]
      rw [if_pos hm, if_neg (not_not_intro hep)]
      exact ih rest (t, log) (fun g hg => hp g (by simp [hg]))
    · simp only [rmfFiles]
      rw [if_neg hm]
      exact ih rest (t, log) (fun g hg => hp g (by simp [hg]))

/-- Once no subdirectory carries the folder's original name any more,
every further differing matching file only logs a rename error (the
source path is gone) and nothing else changes. -/
theorem rmfFiles_source_gone (o : Oracle) (dir : String)
    (movieExts : List String) (dirName : String) :
    ∀ (files : List String) (t : FS1) (log : List LogEntry),
      t.subdirs.any (fun q => q.1 == dirName) = false →
      rmfFiles o dir movieExts dirName files (t, log) =
        (t, log ++ (files.filter (diffMovie dir dirName movieExts)).map
            (fun f => LogEntry.errorRenamingFolder dirName (splitext f).1)) := by
  intro files
  induction files with
  | nil => intro t log _; simp [rmfFiles]
  | cons f rest ih =>
    intro t log hgone
    by_cases hm : movieExts.contains (splitext f).2 = true
    · have hm' : (splitext f).2 ∈ movieExts := by simpa using hm
      by_cases hne : pathJoin dir dirName ≠ pathJoin dir (splitext f).1
      · have hd : diffMovie dir dirName movieExts f = true := by
          simp [diffMovie, hm', hne]
        simp only [rmfFiles]
        rw [if_pos hm, if_pos hne, if_pos (by simp [hgone])]
        rw [ih t _ hgone]
        simp [List.filter_cons, hd]
      · have hep := not_not.1 hne
        have hd : diffMovie dir dirName movieExts f = false := by
          simp [diffMovie, hep]
        simp only [rmfFiles]
        rw [if_pos hm, if_neg hne]
        rw [ih t log hgone]
        simp [List.filter_cons, hd]
    · have hm' : (splitext f).2 ∉ movieExts := by simpa using hm
      have hd : diffMovie dir dirName movieExts f = false := by
        simp [diffMovie, hm']
      simp only [rmfFiles]
      rw [if_neg hm]
      rw [ih t log hgone]
      simp [List.filter_cons, hd]

/-- rename_movie_folders over a tree with one subdirectory reduces to the
per-directory loop over that subdirectory's listing. -/
theorem rename_movie_folders_single (dir : String) (movieExts : List String)
    (o : Oracle) (rootFiles files : List String) (dirName : String) :
    rename_movie_folders dir movieExts o
        (some ⟨rootFiles, [(dirName, files)]⟩) =
      .ok (some (rmfFiles o dir movieExts dirName files
            (⟨rootFiles, [(dirName, files)]⟩, [])).1,
          (rmfFiles o dir movieExts dirName files
            (⟨rootFiles, [(dirName, files)]⟩, [])).2) := by
  have hfind : List.find? (fun (q : String × List String) => q.1 == dirName)
      [(dirName, files)] = some (dirName, files) :=
    List.find?_cons_of_pos _ (by simp)
  simp only [rename_movie_folders, List.map_cons, List.map_nil,
    List.foldlM_cons, List.foldlM_nil, hfind]
  rfl

/-- C7 (amended), over every directory listing.  Writing the listing as
the files before the first differing matching file, that file `f0`, and
the remainder: a rename attempt is made for each matching file whose base
differs from the original folder path, in listing order; the first
attempt renames the folder, and every later one fails (the original
source path is gone) and is logged as an error, so the folder's final
name is the base name of the FIRST differing matching file.  A listing
with no differing matching file leaves the folder name unchanged and logs
nothing. -/
theorem rename_movie_folders_first_differing_base
    (dir dirName : String) (movieExts : List String) (o : Oracle)
    (rootFiles : List String) :
    (∀ (pre post : List String) (f0 : String),
      (∀ p, o.failRename p = none) →
      (∀ f ∈ pre, diffMovie dir dirName movieExts f = false) →
      diffMovie dir dirName movieExts f0 = true →
      (splitext f0).1 ∉ rootFiles →
      rename_movie_folders dir movieExts o
          (some ⟨rootFiles, [(dirName, pre ++ f0 :: post)]⟩) =
        .ok (some ⟨rootFiles, [((splitext f0).1, pre ++ f0 :: post)]⟩,
          [.infoRenamedFolder dirName (splitext f0).1] ++
            (post.filter (diffMovie dir dirName movieExts)).map
              (fun f => LogEntry.errorRenamingFolder dirName (splitext f).1))) ∧
    (∀ files : List String,
      (∀ f ∈ files, diffMovie dir dirName movieExts f = false) →
      rename_movie_folders dir movieExts o
          (some ⟨rootFiles, [(dirName, files)]⟩) =
        .ok (some ⟨rootFiles, [(dirName, files)]⟩, [])) := by
  constructor
  · intro pre post f0 hren hpre hf0 hfresh
    have hf0' := hf0
    simp only [diffMovie, Bool.and_eq_true, decide_eq_true_eq] at hf0'
    have hm : movieExts.contains (splitext f0).2 = true := hf0'.1
    have hne : pathJoin dir dirName ≠ pathJoin dir (splitext f0).1 := hf0'.2
    have hdb : dirName ≠ (splitext f0).1 := pathJoin_ne dir dirName _ hne
    rw [rename_movie_folders_single]
    rw [rmfFiles_skip o dir movieExts dirName pre (f0 :: post) _ hpre]
    have hren2 : renameFolderEntry [(dirName, pre ++ f0 :: post)] dirName
        (splitext f0).1 = [((splitext f0).1, pre ++ f0 :: post)] := by
      simp [renameFolderEntry]
    have hgone : ([((splitext f0).1, pre ++ f0 :: post)] :
        List (String × List String)).any (fun q => q.1 == dirName) = false := by
      simp [Ne.symm hdb]
    have hstep : rmfFiles o dir movieExts dirName (f0 :: post)
        (⟨rootFiles, [(dirName, pre ++ f0 :: post)]⟩, []) =
      rmfFiles o dir movieExts dirName post
        (⟨rootFiles, [((splitext f0).1, pre ++ f0 :: post)]⟩,
         [.infoRenamedFolder dirName (splitext f0).1]) := by
      simp only [rmfFiles]
      rw [if_pos hm, if_pos hne]
      rw [if_neg (by simp)]
      rw [if_neg (by simp [hdb, hfresh])]
      rw [hren (pathJoin dir dirName)]
      simp [hren2]
    rw [hstep]
    rw [rmfFiles_source_gone o dir movieExts dirName post
      ⟨rootFiles, [((splitext f0).1, pre ++ f0 :: post)]⟩ _ hgone]
  · intro files hall
    rw [rename_movie_folders_single]
    rw [show files = files ++ [] from (List.append_nil files).symm]
    rw [rmfFiles_skip o dir movieExts dirName files [] _ hall]
    rfl

/-- Witness for the amended C7: the folder "A" holding "A.mkv" (whose base
equals the folder name: no attempt) then "B.mkv" (the first differing
matching file) ends up named "B". -/
theorem rename_movie_folders_first_differing_base_witness :
    rename_movie_folders "m" [".mkv"] Oracle.ok
        (some ⟨[], [("A", ["A.mkv", "B.mkv"])]⟩) =
      .ok (some ⟨[], [("B", ["A.mkv", "B.mkv"])]⟩,
        [.infoRenamedFolder "A" "B"]) :=
  (rename_movie_folders_first_differing_base "m" "A" [".mkv"] Oracle.ok
    []).1 ["A.mkv"] [] "B.mkv" (fun _ => rfl) (by decide) (by decide)
    (by decide)

/- ------------------------------------------------------------------
   organize_files_into_folders (movie_cleanup.py lines 85-104).
   Non-recursive.  `os.listdir(directory)` is modelled as the root's files
   followed by its subdirectory names (the listing order is unspecified on
   the real filesystem and no claim depends on it); `os.path.isfile` is
   checked on the live state.
   ------------------------------------------------------------------ -/

/-- Lines 91-104: handle one listed entry. -/
def organizeItem (dir : String) (o : Oracle) (st : FS1 × List LogEntry)
    (item : String) : FS1 × List LogEntry :=
  let t := st.1
  let log := st.2
  if strStartsWith item "." then st
  else if t.rootFiles.contains item then
    let folder_name := (splitext item).1
    let folder_path := pathJoin dir folder_name
    -- the per-item try/except catches any failure of makedirs/move
    match o.failMove (pathJoin dir item) with
    | some _ => (t, log ++ [.errorOrganizing item])
    | none =>
      if t.subdirs.any (fun q => q.1 == folder_name) then
        -- the folder exists: move the file into it (replacing any
        -- same-named file inside)
        let subs := t.subdirs.map (fun q =>
          if q.1 == folder_name then
            (q.1, if q.2.contains item then q.2 else q.2 ++ [item])
          else q)
        ({ rootFiles := t.rootFiles.erase item, subdirs := subs },
         log ++ [.infoMovedToFolder item folder_path])
      else if t.rootFiles.contains folder_name then
        -- os.path.exists is true because a FILE of that name exists: no
        -- makedirs, and shutil.move renames the item onto that file
        (if item == folder_name then t
         else { t with rootFiles := t.rootFiles.erase item },
         log ++ [.infoMovedToFolder item folder_path])
      else
        ({ rootFiles := t.rootFiles.erase item,
           subdirs := t.subdirs ++ [(folder_name, [item])] },
         log ++ [.infoCreatedFolder folder_path,
                 .infoMovedToFolder item folder_path])
  else st

/-- Lines 85-104: organize_files_into_folders(directory). -/
def organize_files_into_folders (dir : String) (o : Oracle)
    (fs? : Option FS1) : Option FS1 × List LogEntry :=
  match fs? with
  | none => (none, [.errorPathInvalid dir])
  | some t =>
    let entries := t.rootFiles ++ t.subdirs.map Prod.fst
    let r := entries.foldl (organizeItem dir o) (t, [])
    (some r.1, r.2)

/-- clean_unwanted_files over a one-level tree, from the same
per-directory core `clean_dir` as the walk model (`os.walk` with the
default topdown=True visits the root first, then each subdirectory). -/
def clean_unwanted_files_fs (dir : String) (exts : List String) (o : Oracle)
    (fs? : Option FS1) : Option FS1 × List LogEntry :=
  match fs? with
  | none => (none, [.errorPathInvalid dir])
  | some t =>
    let rootR := clean_dir o exts dir t.rootFiles
    let subR := t.subdirs.map
      (fun q => (q.1, clean_dir o exts (pathJoin dir q.1) q.2))
    (some ⟨rootR.1, subR.map (fun q => (q.1, q.2.1))⟩,
     rootR.2 ++ (subR.map (fun q => q.2.2)).flatten)

/- ------------------------------------------------------------------
   manage_log_files (movie_cleanup.py lines 201-205).  The directory is a
   list of (name, mtime) pairs; `glob.glob("movie_cleanup_*.log")` over a
   missing directory yields [] — the function has NO existence check and
   logs nothing in that case.  Deletions are not retry-wrapped.
   ------------------------------------------------------------------ -/

/-- Does a name match the glob pattern "movie_cleanup_*.log"? -/
def matchesLogPattern (name : String) : Bool :=
  strStartsWith name "movie_cleanup_" &&
  strEndsWith (⟨name.data.drop 14⟩ : String) ".log"

/-- Stable insertion into a list sorted by decreasing mtime. -/
def insertByMtime (x : String × Nat) :
    List (String × Nat) → List (String × Nat)
  | [] => [x]
  | y :: ys => if y.2 > x.2 then y :: insertByMtime x ys else x :: y :: ys

/-- Python `sorted(..., key=getmtime, reverse=True)` (a stable descending
sort by modification time). -/
def sortByMtimeDesc (l : List (String × Nat)) : List (String × Nat) :=
  l.foldr insertByMtime []

/-- Lines 201-205: manage_log_files(logs_dir, max_files=10). -/
def manage_log_files (logs_dir : String) (max_files : Nat)
    (d? : Option (List (String × Nat))) :
    Option (List (String × Nat)) × List LogEntry :=
  match d? with
  | none => (none, [])
  | some files =>
    let log_files := sortByMtimeDesc (files.filter (fun q => matchesLogPattern q.1))
    let victims := log_files.drop max_files
    (some (files.filter (fun q => !(victims.any (fun v => v.1 == q.1)))),
     victims.map (fun v => LogEntry.infoDeletedOldLog (pathJoin logs_dir v.1)))

/- ------------------------------------------------------------------
   The GUI and its "Start Cleanup" action (src/gui.py).
   gui.py imports five names from movie_cleanup (its import statement) and
   its run_script handler first disables self.start_button, then defines
   target() — which writes the directory text field's value into
   config["movies_directory"] and calls organize_files_into_folders,
   clean_unwanted_files and rename_movie_folders, in that order, catching
   any exception at the worker boundary — and starts it on a thread.
   setup_gui creates every button without storing it on the instance, so
   no start_button attribute ever exists: the first statement of
   run_script raises AttributeError and the worker thread is never
   created.
   ------------------------------------------------------------------ -/

/-- A Python AttributeError raised by reading a missing instance
attribute. -/
inductive PyError where
  | attributeError (attr : String)
deriving DecidableEq, Repr

/-- The attribute names __init__ and setup_gui assign on the
MovieCleanupGUI instance (master, config_path, config, the two field
variables, the log console); no button is ever stored. -/
def gui_assigned_attributes : List String :=
  ["master", "config_path", "config",
   "movie_directory_var", "unwanted_ext_var", "log_text"]

/-- The names gui.py imports from the movie_cleanup module. -/
def gui_imported_names : List String :=
  ["clean_unwanted_files", "organize_files_into_folders",
   "process_subtitles", "rename_subtitles_and_nfo", "rename_movie_folders"]

/-- The top-level functions movie_cleanup.py defines. -/
def movie_cleanup_defined_functions : List String :=
  ["retry", "is_excluded_subtitle", "is_english_subtitle",
   "clean_unwanted_files", "organize_files_into_folders",
   "move_and_rename_subtitles_and_nfo", "rename_movie_folders",
   "manage_log_files"]

/-- The library operations a GUI worker can invoke. -/
inductive OpName where
  | organize
  | cleanUnwanted
  | subtitlesNfo
  | renameFolders
deriving DecidableEq, Repr

/-- The sequence of library calls in run_script's target(), in source
order (gui.py). -/
def run_script_sequence : List OpName :=
  [.organize, .cleanUnwanted, .renameFolders]

/-- Modelled from the spec: the sub-operation sequence §4.2 prescribes for
the "Start Cleanup" button — organize-into-folders, then
move-and-rename-subtitles-and-NFO, then clean-unwanted-files, then
rename-movie-folders. -/
def spec_start_cleanup_sequence : List OpName :=
  [.organize, .subtitlesNfo, .cleanUnwanted, .renameFolders]

/-- run_script's target(): `guiDir` is the directory text field's value,
written into the configuration before the operations run.  The Bool
records whether the completion message ("Cleanup completed successfully.")
or the caught-error message was appended. -/
def run_script_target (guiDir : String) (cfg : Config) (o : Oracle)
    (fs? : Option FS1) : (Option FS1 × List LogEntry) × Bool :=
  let cfg2 := { cfg with movies_directory := guiDir }
  let r1 := organize_files_into_folders cfg2.movies_directory o fs?
  let r2 := clean_unwanted_files_fs cfg2.movies_directory
    cfg2.unwanted_extensions o r1.1
  match rename_movie_folders cfg2.movies_directory cfg2.movie_extensions o r2.1 with
  | .ok (f3, l3) => ((f3, r1.2 ++ r2.2 ++ l3), true)
  | .error _ => ((r2.1, r1.2 ++ r2.2), false)

/-- run_script itself (the Start Cleanup handler): its first statement
reads self.start_button, which is never among the assigned attributes, so
the handler raises AttributeError before target() is defined or
dispatched; were the attribute present, the worker would run
`run_script_target`. -/
def run_script (guiDir : String) (cfg : Config) (o : Oracle)
    (fs? : Option FS1) : Except PyError ((Option FS1 × List LogEntry) × Bool) :=
  if gui_assigned_attributes.contains "start_button" then
    .ok (run_script_target guiDir cfg o fs?)
  else .error (.attributeError "start_button")

/-- A configuration whose persisted movies_directory ("stale") differs
from the GUI field, with ".tmp" as the unwanted suffix. -/
def cfgC1 : Config := ⟨"stale", [".tmp"], [], [".mkv"], []⟩

/-- C1 counterexample: triggering Start Cleanup never runs four
sub-operations.  The handler raises AttributeError on the never-assigned
start_button before any worker thread exists; the worker body it would
dispatch omits the subtitle/NFO operation anyway; and gui.py imports a
name movie_cleanup.py does not define, so the module cannot even load. -/
theorem start_cleanup_never_runs_four_ops :
    run_script "m" cfgC1 Oracle.ok (some ⟨[], []⟩) =
      .error (.attributeError "start_button") ∧
    run_script_sequence ≠ spec_start_cleanup_sequence ∧
    OpName.subtitlesNfo ∉ run_script_sequence ∧
    "process_subtitles" ∈ gui_imported_names ∧
    "process_subtitles" ∉ movie_cleanup_defined_functions :=
  ⟨rfl, by decide, by decide, by decide, by decide⟩

/-- C1 (amended): for every input, triggering Start Cleanup raises
AttributeError on the never-assigned start_button, so no worker thread is
created; the worker body it would dispatch consists of exactly three
sub-operations in source order — organize-into-folders,
clean-unwanted-files, rename-movie-folders — and a concrete run of that
body shows them executing strictly in sequence on the live GUI directory
"m" (not the stale persisted one): organize first moves "Movie.tmp" into
a new "m/Movie" folder, clean then deletes it at its post-organize path,
and the folder renamer finally renames the pre-existing "old" folder. -/
theorem run_script_raises_attribute_error (guiDir : String) (cfg : Config)
    (o : Oracle) (fs? : Option FS1) :
    run_script guiDir cfg o fs? = .error (.attributeError "start_button") ∧
    "start_button" ∉ gui_assigned_attributes ∧
    run_script_sequence = [OpName.organize, OpName.cleanUnwanted,
      OpName.renameFolders] ∧
    run_script_target "m" cfgC1 Oracle.ok
      (some ⟨["Movie.tmp"], [("old", ["Film.mkv"])]⟩) =
      ((some ⟨[], [("Film", ["Film.mkv"]), ("Movie", [])]⟩,
        [.infoCreatedFolder "m/Movie",
         .infoMovedToFolder "Movie.tmp" "m/Movie",
         .infoDeleted "m/Movie/Movie.tmp",
         .infoRenamedFolder "old" "Film"]), true) :=
  ⟨rfl, by decide, rfl, rfl⟩

/-- C8 counterexample: unlike every walk operation, manage_log_files has
no existence check: over a missing logs directory it returns normally,
mutates nothing, and logs NO error (its glob simply yields no files). -/
theorem manage_log_files_missing_dir_logs_nothing :
    manage_log_files "logs" 10 none = (none, []) := rfl

/-- C8 (amended): the four retry-wrapped walk operations, given a missing
root, log the path-invalid error, mutate nothing and return normally — so
nothing reaches the retry wrapper (a wrapped call that returns makes
exactly one attempt with no sleeps) — while the log-file manager also
returns normally without mutating anything but logs nothing at all. -/
theorem missing_root_behavior (dir ld : String) (exts mexts : List String)
    (cfg : Config) (o : Oracle) (k : Nat) :
    clean_unwanted_files dir exts o none = (none, [.errorPathInvalid dir]) ∧
    organize_files_into_folders dir o none = (none, [.errorPathInvalid dir]) ∧
    move_and_rename_subtitles_and_nfo cfg o none =
      .ok (none, [.errorPathInvalid cfg.movies_directory]) ∧
    rename_movie_folders dir mexts o none =
      .ok (none, [.errorPathInvalid dir]) ∧
    retryPy (fun _ =>
        (Except.ok (clean_unwanted_files dir exts o none) :
          Except FsError (Option Walk × List LogEntry))) 4 1 2 =
      (.ok (clean_unwanted_files dir exts o none), ([], 1)) ∧
    manage_log_files ld k none = (none, []) := by
  refine ⟨rfl, rfl, rfl, rfl, ?_, rfl⟩
  simp [retryPy, retryAux]

end MovieCleanup
